import Mathlib

/-!
Shallow embedding of the task/category persistence layer of `app.py`
(the `DatabaseManager` class backed by a MySQL database) together with
the two reactive form handlers the verified properties mention
(`add_new_task`, `perform_search`).

Modelling choices:
* The database state is a record of three tables (`categories`, `tasks`,
  `task_notes`) as Lean lists, plus the three `AUTO_INCREMENT` counters.
* `CURRENT_TIMESTAMP` is modelled by an explicit `now : Nat` argument to
  every operation that stores a timestamp.
* `get_connection` either yields a connection or `None`; this is modelled
  by a `conn : Bool` argument to every operation: `conn = false` is a
  connection failure, and the operation returns its sentinel value.
* Query/constraint failures (the `except Error` branches) are modelled
  explicitly: the `UNIQUE` constraint on `categories.name` (under the
  case-insensitive `utf8mb4_unicode_ci` collation, modelled by `toLower`)
  and the foreign-key constraints `tasks.category REFERENCES categories`
  (`ON DELETE RESTRICT`) and `task_notes.task_id REFERENCES tasks`.
* `ORDER BY` clauses are modelled with `List.insertionSort` under the
  corresponding relation; string comparison for `ORDER BY name` is done on
  lowercased names (case-insensitive collation).
* SQL `LIKE` is modelled by a wildcard matcher (`%` matches any sequence,
  `_` any one character), case-insensitively (the `_ci` collation).
  `search_tasks` passes the parameter `f"'%{search_term}%'"`, so the
  literal single quotes are part of the LIKE pattern; the embedding keeps
  them (`search_pattern`).
-/

namespace Taskappy

/-- A row of the `categories` table. -/
structure Category where
  id : Nat
  name : String
  created_at : Nat
  updated_at : Nat
deriving Repr, DecidableEq

/-- A row of the `tasks` table. -/
structure Task where
  id : Nat
  subject : String
  category : Nat
  status : String
  created_at : Nat
  updated_at : Nat
deriving Repr, DecidableEq

/-- A row of the `task_notes` table. -/
structure Note where
  id : Nat
  task_id : Nat
  note : String
  created_at : Nat
deriving Repr, DecidableEq

/-- The whole database: the three tables plus the `AUTO_INCREMENT` counters. -/
structure DBState where
  categories : List Category
  tasks : List Task
  notes : List Note
  nextCategoryId : Nat
  nextTaskId : Nat
  nextNoteId : Nat
deriving Repr, DecidableEq

/-- `DEFAULT_CATEGORIES` from `app.py`. -/
def DEFAULT_CATEGORIES : List String :=
  ["Relationship with God", "Spouse", "Family", "Church",
   "Work-Education", "Community-Friends", "Hobbies-Interest"]

/-- `STATUSES` from `app.py`. -/
def STATUSES : List String := ["Idea", "Open", "Closed"]

/-- Python's `str.lower()` (ASCII model, matching the `_ci` collation). -/
def str_lower (s : String) : String :=
  ⟨s.data.map Char.toLower⟩

/-- Python's `str.strip()`: remove whitespace from both ends. -/
def str_trim (s : String) : String :=
  ⟨((s.data.dropWhile Char.isWhitespace).reverse.dropWhile
      Char.isWhitespace).reverse⟩

/-- SQL `LIKE` matching on character lists: `%` matches any sequence of
characters, `_` matches exactly one character, anything else matches
itself. -/
def like_match : List Char → List Char → Bool
  | [], s => s.isEmpty
  | '%' :: ps, s => (List.range (s.length + 1)).any fun i => like_match ps (s.drop i)
  | '_' :: ps, s =>
    match s with
    | [] => false
    | _ :: s2 => like_match ps s2
  | p :: ps, s =>
    match s with
    | [] => false
    | c :: s2 => p == c && like_match ps s2

/-- Case-insensitive SQL `LIKE` (the tables use the `utf8mb4_unicode_ci`
collation, modelled by lowercasing both sides). -/
def sql_like (pat s : String) : Bool :=
  like_match (str_lower pat).data (str_lower s).data

/-- The parameter `search_tasks` binds to both `LIKE` placeholders:
`f"'%{search_term}%'"` — note that the literal single quotes are part of
the bound value, hence of the LIKE pattern. -/
def search_pattern (search_term : String) : String :=
  "'%" ++ search_term ++ "%'"

/-- `init_database`: creates the tables (schema is implicit in the state
type) and inserts the `DEFAULT_CATEGORIES` when `SELECT COUNT(*) FROM
categories` returns `0`. -/
def init_database (conn : Bool) (now : Nat) (st : DBState) : DBState :=
  if conn then
    if st.categories.length = 0 then
      DEFAULT_CATEGORIES.foldl
        (fun s nm =>
          { s with
            categories := s.categories ++ [⟨s.nextCategoryId, nm, now, now⟩],
            nextCategoryId := s.nextCategoryId + 1 })
        st
    else st
  else st

/-- `create_category`: `INSERT INTO categories (name) VALUES (%s)`; the
`UNIQUE` constraint on `name` (case-insensitive collation) makes the
insert fail when the name already exists, which the `except` branch turns
into `False`. -/
def create_category (conn : Bool) (name : String) (now : Nat) (st : DBState) :
    Bool × DBState :=
  if conn then
    if st.categories.any (fun c => str_lower c.name == str_lower name) then
      (false, st)
    else
      (true,
       { st with
         categories := st.categories ++ [⟨st.nextCategoryId, name, now, now⟩],
         nextCategoryId := st.nextCategoryId + 1 })
  else (false, st)

/-- `ORDER BY name` under the case-insensitive collation. -/
def catNameLe (a b : Category) : Prop :=
  str_lower a.name ≤ str_lower b.name

instance : DecidableRel catNameLe :=
  fun a b => inferInstanceAs (Decidable (str_lower a.name ≤ str_lower b.name))

instance : IsTotal Category catNameLe :=
  ⟨fun a b => le_total (str_lower a.name) (str_lower b.name)⟩

instance : IsTrans Category catNameLe :=
  ⟨fun _ _ _ h1 h2 => le_trans h1 h2⟩

/-- `get_all_categories`: `SELECT * FROM categories ORDER BY name`. -/
def get_all_categories (conn : Bool) (st : DBState) : List Category :=
  if conn then List.insertionSort catNameLe st.categories else []

/-- `get_category_by_id`: `SELECT * FROM categories WHERE id = %s` with
`fetchone()`. -/
def get_category_by_id (conn : Bool) (category : Nat) (st : DBState) :
    Option Category :=
  if conn then st.categories.find? (fun c => c.id == category) else none

/-- `update_category`: `UPDATE categories SET name = %s WHERE id = %s`;
fails (via the `UNIQUE` constraint) when a different category already has
that name. -/
def update_category (conn : Bool) (category : Nat) (name : String) (now : Nat)
    (st : DBState) : Bool × DBState :=
  if conn then
    if st.categories.any
        (fun c => c.id != category && str_lower c.name == str_lower name) then
      (false, st)
    else
      (true,
       { st with
         categories := st.categories.map fun c =>
           if c.id = category then { c with name := name, updated_at := now }
           else c })
  else (false, st)

/-- `delete_category`: counts `tasks WHERE category = %s`; when the count
is positive it refuses with a count-based message, otherwise it deletes
the category row. Returns a `(success, message)` pair. -/
def delete_category (conn : Bool) (category : Nat) (st : DBState) :
    (Bool × String) × DBState :=
  if conn then
    let task_count := st.tasks.countP (fun t => t.category == category)
    if task_count > 0 then
      ((false,
        "Cannot delete category. " ++ toString task_count ++
          " task(s) are using this category."),
       st)
    else
      ((true, "Category deleted successfully"),
       { st with categories := st.categories.filter fun c => c.id ≠ category })
  else ((false, "Database connection error"), st)

/-- `create_task`: inserts the task row (the foreign key
`category REFERENCES categories(id)` makes the insert fail when the
category does not exist), then, `if note and note.strip()`, inserts the
stripped note with `task_id = cursor.lastrowid`. -/
def create_task (conn : Bool) (subject : String) (category : Nat)
    (status : String) (note : Option String) (now : Nat) (st : DBState) :
    Bool × DBState :=
  if conn then
    if st.categories.any (fun c => c.id == category) then
      let task_id := st.nextTaskId
      let st1 :=
        { st with
          tasks := st.tasks ++ [⟨task_id, subject, category, status, now, now⟩],
          nextTaskId := task_id + 1 }
      match note with
      | some s =>
        if str_trim s ≠ "" then
          (true,
           { st1 with
             notes := st1.notes ++ [⟨st1.nextNoteId, task_id, str_trim s, now⟩],
             nextNoteId := st1.nextNoteId + 1 })
        else (true, st1)
      | none => (true, st1)
    else (false, st)
  else (false, st)

/-- A row of the task-listing / search queries: `t.*`, `c.name AS
category_name`, and the `GROUP_CONCAT` of the task's notes (NULL — here
`none` — when the task has no notes). -/
structure TaskRow where
  id : Nat
  subject : String
  category : Nat
  status : String
  created_at : Nat
  updated_at : Nat
  category_name : String
  notes : Option String
deriving Repr, DecidableEq

/-- `GROUP_CONCAT(tn.note ORDER BY tn.created_at SEPARATOR ' | ')`:
ascending `created_at` order. -/
def noteAsc (a b : Note) : Prop :=
  a.created_at ≤ b.created_at

instance : DecidableRel noteAsc :=
  fun a b => inferInstanceAs (Decidable (a.created_at ≤ b.created_at))

instance : IsTotal Note noteAsc :=
  ⟨fun a b => Nat.le_total a.created_at b.created_at⟩

instance : IsTrans Note noteAsc :=
  ⟨fun _ _ _ h1 h2 => Nat.le_trans h1 h2⟩

/-- `ORDER BY created_at DESC` on notes (`get_task_notes`). -/
def noteDesc (a b : Note) : Prop :=
  b.created_at ≤ a.created_at

instance : DecidableRel noteDesc :=
  fun a b => inferInstanceAs (Decidable (b.created_at ≤ a.created_at))

instance : IsTotal Note noteDesc :=
  ⟨fun a b => Nat.le_total b.created_at a.created_at⟩

instance : IsTrans Note noteDesc :=
  ⟨fun _ _ _ h1 h2 => Nat.le_trans h2 h1⟩

/-- `ORDER BY t.created_at DESC` on listing/search rows. -/
def taskRowDesc (a b : TaskRow) : Prop :=
  b.created_at ≤ a.created_at

instance : DecidableRel taskRowDesc :=
  fun a b => inferInstanceAs (Decidable (b.created_at ≤ a.created_at))

instance : IsTotal TaskRow taskRowDesc :=
  ⟨fun a b => Nat.le_total b.created_at a.created_at⟩

instance : IsTrans TaskRow taskRowDesc :=
  ⟨fun _ _ _ h1 h2 => Nat.le_trans h2 h1⟩

/-- The `GROUP_CONCAT(tn.note ORDER BY tn.created_at SEPARATOR ' | ')`
value for one task: `none` when the task has no notes (SQL NULL from the
LEFT JOIN). -/
def task_notes_concat (st : DBState) (task_id : Nat) : Option String :=
  match List.insertionSort noteAsc (st.notes.filter fun n => n.task_id == task_id) with
  | [] => none
  | ns => some (String.intercalate " | " (ns.map fun n => n.note))

/-- One result row of the listing/search `SELECT` for task `t` joined
with its category `c`. -/
def task_row (st : DBState) (t : Task) (c : Category) : TaskRow :=
  ⟨t.id, t.subject, t.category, t.status, t.created_at, t.updated_at,
   c.name, task_notes_concat st t.id⟩

/-- The `FROM tasks t JOIN categories c ON t.category = c.id LEFT JOIN
task_notes ... GROUP BY t.id ...` part shared by `get_all_tasks` and
`search_tasks`: one row per task that has a matching category. -/
def joined_rows (st : DBState) : List TaskRow :=
  st.tasks.filterMap fun t =>
    (st.categories.find? fun c => c.id == t.category).map (task_row st t)

/-- `get_all_tasks`: the join above, `ORDER BY t.created_at DESC`. -/
def get_all_tasks (conn : Bool) (st : DBState) : List TaskRow :=
  if conn then List.insertionSort taskRowDesc (joined_rows st) else []

/-- `search_tasks`: the same join filtered by
`WHERE t.subject LIKE %s OR c.name LIKE %s`, both placeholders bound to
`f"'%{search_term}%'"`, `ORDER BY t.created_at DESC`. -/
def search_tasks (conn : Bool) (search_term : String) (st : DBState) :
    List TaskRow :=
  if conn then
    List.insertionSort taskRowDesc
      ((joined_rows st).filter fun r =>
        sql_like (search_pattern search_term) r.subject ||
          sql_like (search_pattern search_term) r.category_name)
  else []

/-- `get_task_by_id`: `SELECT * FROM tasks WHERE id = %s` with
`fetchone()`. -/
def get_task_by_id (conn : Bool) (task_id : Nat) (st : DBState) : Option Task :=
  if conn then st.tasks.find? (fun t => t.id == task_id) else none

/-- `get_task_notes`: `SELECT * FROM task_notes WHERE task_id = %s ORDER
BY created_at DESC`. -/
def get_task_notes (conn : Bool) (task_id : Nat) (st : DBState) : List Note :=
  if conn then
    List.insertionSort noteDesc (st.notes.filter fun n => n.task_id == task_id)
  else []

/-- `update_task`: `UPDATE tasks SET subject = %s, category = %s, status
= %s WHERE id = %s`; when a row matches and the new category id does not
exist, the `RESTRICT` foreign key makes the statement fail (`False`);
`updated_at` follows `ON UPDATE CURRENT_TIMESTAMP`. -/
def update_task (conn : Bool) (task_id : Nat) (subject : String)
    (category : Nat) (status : String) (now : Nat) (st : DBState) :
    Bool × DBState :=
  if conn then
    if st.tasks.any (fun t => t.id == task_id) &&
        !(st.categories.any fun c => c.id == category) then
      (false, st)
    else
      (true,
       { st with
         tasks := st.tasks.map fun t =>
           if t.id = task_id then
             { t with
               subject := subject, category := category, status := status,
               updated_at := now }
           else t })
  else (false, st)

/-- `add_note_to_task`: `INSERT INTO task_notes (task_id, note) VALUES
(%s, %s)` — no stripping here; the foreign key makes it fail when the
task does not exist. -/
def add_note_to_task (conn : Bool) (task_id : Nat) (note : String) (now : Nat)
    (st : DBState) : Bool × DBState :=
  if conn then
    if st.tasks.any (fun t => t.id == task_id) then
      (true,
       { st with
         notes := st.notes ++ [⟨st.nextNoteId, task_id, note, now⟩],
         nextNoteId := st.nextNoteId + 1 })
    else (false, st)
  else (false, st)

/-- `delete_task`: `DELETE FROM task_notes WHERE task_id = %s` then
`DELETE FROM tasks WHERE id = %s`. -/
def delete_task (conn : Bool) (task_id : Nat) (st : DBState) : Bool × DBState :=
  if conn then
    (true,
     { st with
       notes := st.notes.filter (fun n => n.task_id ≠ task_id),
       tasks := st.tasks.filter fun t => t.id ≠ task_id })
  else (false, st)

/-- The search-related part of the reactive UI state: `search_results`
and `show_search_results`. -/
structure SearchState where
  search_results : List TaskRow
  show_search_results : Bool
deriving Repr, DecidableEq

/-- The `perform_search` effect: a blank (`not term or not term.strip()`)
search term only hides the results panel; otherwise it runs
`db.search_tasks(term.strip())` and shows the panel. -/
def perform_search (conn : Bool) (search_term : String) (st : DBState)
    (ss : SearchState) : SearchState :=
  if str_trim search_term = "" then { ss with show_search_results := false }
  else
    { search_results := search_tasks conn (str_trim search_term) st,
      show_search_results := true }

/-- The `add_new_task` effect: `if not input.task_subject(): return`
(Python falsiness: only the empty string is rejected), otherwise
`db.create_task(subject, category, status, note)`. Returns the database
state after the handler. -/
def add_new_task (conn : Bool) (task_subject : String) (task_category : Nat)
    (task_status : String) (task_note : String) (now : Nat) (st : DBState) :
    DBState :=
  if task_subject = "" then st
  else (create_task conn task_subject task_category task_status
        (some task_note) now st).2

/-- The operations the `DatabaseManager` exposes that can change the
database, as one inductive type (reads are omitted: they do not touch the
state). There is no note-update and no note-delete constructor, because
the class has no such method. -/
inductive DBOp where
  | initDatabase (now : Nat)
  | createCategory (name : String) (now : Nat)
  | updateCategory (category : Nat) (name : String) (now : Nat)
  | deleteCategory (category : Nat)
  | createTask (subject : String) (category : Nat) (status : String)
      (note : Option String) (now : Nat)
  | updateTask (task_id : Nat) (subject : String) (category : Nat)
      (status : String) (now : Nat)
  | addNoteToTask (task_id : Nat) (note : String) (now : Nat)
  | deleteTask (task_id : Nat)
deriving Repr, DecidableEq

/-- State transition of one `DatabaseManager` mutating call. -/
def applyOp (conn : Bool) (op : DBOp) (st : DBState) : DBState :=
  match op with
  | .initDatabase now => init_database conn now st
  | .createCategory name now => (create_category conn name now st).2
  | .updateCategory c name now => (update_category conn c name now st).2
  | .deleteCategory c => (delete_category conn c st).2
  | .createTask subject c status note now =>
      (create_task conn subject c status note now st).2
  | .updateTask tid subject c status now =>
      (update_task conn tid subject c status now st).2
  | .addNoteToTask tid note now => (add_note_to_task conn tid note now st).2
  | .deleteTask tid => (delete_task conn tid st).2

/-- An empty database (all tables empty, counters at 1). -/
def emptySt : DBState := ⟨[], [], [], 1, 1, 1⟩

/-- A small populated database: one category, one task in it, one note. -/
def wSt : DBState :=
  ⟨[⟨1, "Work", 0, 0⟩], [⟨1, "Ship report", 1, "Idea", 5, 5⟩],
   [⟨1, 1, "first draft done", 6⟩], 2, 2, 2⟩

/-- A larger populated database: two categories, a task in each, a note on
each task. -/
def wSt2 : DBState :=
  ⟨[⟨1, "Work", 0, 0⟩, ⟨2, "Family", 0, 0⟩],
   [⟨1, "Ship report", 1, "Idea", 5, 5⟩, ⟨2, "Call mom", 2, "Open", 6, 6⟩],
   [⟨1, 1, "first draft done", 6⟩, ⟨2, 2, "tonight", 7⟩], 3, 3, 3⟩

/-- A sample sequence of mutating operations that never deletes task 1
(the parent of the note observed in `notes_immutable_app`). -/
def ops8 : List DBOp :=
  [DBOp.createTask "T" 1 "Open" (some "x") 8,
   DBOp.updateTask 1 "S" 2 "Closed" 9,
   DBOp.deleteTask 2,
   DBOp.addNoteToTask 1 "y" 10,
   DBOp.createCategory "Garden" 11,
   DBOp.initDatabase 12]

/-- C1: `search_tasks` binds the parameter `f"'%{search_term}%'"`, so the
literal single quotes become part of the LIKE pattern and an ordinary
substring of a task's subject or category name does not match: with one
task "Ship report" in category "Work", searching "report" (a substring of
the subject) and searching "Work" (the category name itself) both return
the empty result set, although the task is present and listed. -/
theorem search_tasks_quoted_pattern_bug :
    get_all_tasks true wSt =
      [⟨1, "Ship report", 1, "Idea", 5, 5, "Work", some "first draft done"⟩] ∧
    search_tasks true "report" wSt = [] ∧
    search_tasks true "Work" wSt = [] :=
  ⟨rfl, rfl, rfl⟩

/-- C9: at initialization, if the categories table is empty, exactly the
seven `DEFAULT_CATEGORIES` are inserted (and the other tables are
untouched); if it is non-empty, the database is left unchanged. -/
theorem init_database_seeds_defaults (st : DBState) (now : Nat) :
    (st.categories = [] →
      (init_database true now st).categories.map (fun c => c.name) =
        DEFAULT_CATEGORIES ∧
      (init_database true now st).tasks = st.tasks ∧
      (init_database true now st).notes = st.notes) ∧
    (st.categories ≠ [] → init_database true now st = st) := by
  constructor
  · intro h
    refine ⟨?_, ?_, ?_⟩ <;> simp [init_database, DEFAULT_CATEGORIES, h]
  · intro h
    have hlen : ¬ st.categories.length = 0 := by
      simpa [List.length_eq_zero] using h
    simp [init_database, hlen]

/-- Witness for `init_database_seeds_defaults`: seeding an empty database
yields the seven default names; a non-empty database is unchanged. -/
theorem init_database_seeds_defaults_app :
    (init_database true 0 emptySt).categories.map (fun c => c.name) =
      DEFAULT_CATEGORIES ∧
    init_database true 0 wSt2 = wSt2 :=
  ⟨((init_database_seeds_defaults emptySt 0).1 rfl).1,
   (init_database_seeds_defaults wSt2 0).2 (by decide)⟩

/-- C4: deleting a category that `N ≥ 1` tasks reference fails with the
count-based message and leaves the whole database unchanged; deleting a
category no task references succeeds with the success message and removes
exactly that category row. -/
theorem delete_category_in_use_or_free (st : DBState) (category : Nat) :
    (0 < st.tasks.countP (fun t => t.category == category) →
      delete_category true category st =
        ((false,
          "Cannot delete category. " ++
            toString (st.tasks.countP fun t => t.category == category) ++
            " task(s) are using this category."),
         st)) ∧
    (st.tasks.countP (fun t => t.category == category) = 0 →
      delete_category true category st =
        ((true, "Category deleted successfully"),
         { st with
           categories := st.categories.filter fun c => c.id ≠ category })) := by
  constructor
  · intro h
    simp [delete_category, h]
  · intro h
    simp [delete_category, h]

/-- Witness for `delete_category_in_use_or_free`: category 1 of `wSt` is
used by one task and cannot be deleted; category 2 does not exist in any
task and deleting it succeeds. -/
theorem delete_category_in_use_or_free_app :
    delete_category true 1 wSt =
      ((false, "Cannot delete category. 1 task(s) are using this category."),
       wSt) ∧
    delete_category true 2 wSt =
      ((true, "Category deleted successfully"),
       { wSt with categories := wSt.categories.filter fun c => c.id ≠ 2 }) :=
  ⟨(delete_category_in_use_or_free wSt 1).1 (by decide),
   (delete_category_in_use_or_free wSt 2).2 (by decide)⟩

/-- C2: creating a task under an existing category succeeds, appends
exactly one task row, and appends exactly one note row if and only if the
optional note is non-blank after stripping; the stored note text is the
stripped text. -/
theorem create_task_adds_rows (st : DBState) (subject : String)
    (category : Nat) (status : String) (note : Option String) (now : Nat)
    (h : st.categories.any (fun c => c.id == category) = true) :
    (create_task true subject category status note now st).1 = true ∧
    (create_task true subject category status note now st).2.tasks =
      st.tasks ++ [⟨st.nextTaskId, subject, category, status, now, now⟩] ∧
    (str_trim (note.getD "") = "" →
      (create_task true subject category status note now st).2.notes =
        st.notes) ∧
    (str_trim (note.getD "") ≠ "" →
      (create_task true subject category status note now st).2.notes =
        st.notes ++
          [⟨st.nextNoteId, st.nextTaskId, str_trim (note.getD ""), now⟩]) := by
  cases note with
  | none =>
    refine ⟨?_, ?_, ?_, ?_⟩ <;> simp [create_task, h, str_trim]
  | some s =>
    by_cases hs : str_trim s = "" <;>
      refine ⟨?_, ?_, ?_, ?_⟩ <;> simp [create_task, h, hs]

/-- Witness for `create_task_adds_rows`: in `wSt` (category 1 exists), a
note `" x "` is stored stripped as `"x"`, and a whitespace-only note
stores nothing. -/
theorem create_task_adds_rows_app :
    (create_task true "T" 1 "Open" (some " x ") 9 wSt).2.notes =
      wSt.notes ++ [⟨2, 2, "x", 9⟩] ∧
    (create_task true "T" 1 "Open" (some "  ") 9 wSt).2.notes = wSt.notes :=
  ⟨(create_task_adds_rows wSt "T" 1 "Open" (some " x ") 9
      (by decide)).2.2.2 (by decide),
   (create_task_adds_rows wSt "T" 1 "Open" (some "  ") 9
      (by decide)).2.2.1 (by decide)⟩

/-- C6 counterexample: the `add_new_task` handler only rejects the empty
subject (`if not input.task_subject()`), so a whitespace-only subject is
NOT a no-op: on `wSt` it creates a new task row with subject `" "`. -/
theorem add_new_task_whitespace_subject_creates_row :
    (add_new_task true " " 1 "Idea" "" 7 wSt).tasks =
      wSt.tasks ++ [⟨2, " ", 1, "Idea", 7, 7⟩] := by
  decide

/-- C6 (amended): submitting the add-task form with an empty subject is a
no-op (no task and no note row); submitting a search whose term is empty
or whitespace-only performs no search and hides the results panel. -/
theorem empty_subject_and_blank_search_noop (conn : Bool) (category : Nat)
    (status note : String) (now : Nat) (st : DBState) (ss : SearchState)
    (search_term : String) (h : str_trim search_term = "") :
    add_new_task conn "" category status note now st = st ∧
    perform_search conn search_term st ss =
      { ss with show_search_results := false } := by
  refine ⟨rfl, ?_⟩
  simp [perform_search, h]

/-- Witness for `empty_subject_and_blank_search_noop` at a whitespace-only
search term and the empty subject. -/
theorem empty_subject_and_blank_search_noop_app :
    add_new_task true "" 1 "Idea" "n" 0 wSt = wSt ∧
    perform_search true "  " wSt ⟨[], true⟩ = ⟨[], false⟩ :=
  empty_subject_and_blank_search_noop true 1 "Idea" "n" 0 wSt ⟨[], true⟩ "  "
    (by decide)

/-- C3: `delete_task` reports success, removes exactly the notes whose
`task_id` is the given id and exactly the task rows with that id (all
other tasks and notes survive unchanged, categories untouched), and the
subsequent `get_all_tasks` listing contains no row with that id. -/
theorem delete_task_cascades (st : DBState) (task_id : Nat) :
    (delete_task true task_id st).1 = true ∧
    (∀ n : Note, n ∈ (delete_task true task_id st).2.notes ↔
      n ∈ st.notes ∧ n.task_id ≠ task_id) ∧
    (∀ t : Task, t ∈ (delete_task true task_id st).2.tasks ↔
      t ∈ st.tasks ∧ t.id ≠ task_id) ∧
    (delete_task true task_id st).2.categories = st.categories ∧
    (∀ row ∈ get_all_tasks true (delete_task true task_id st).2,
      row.id ≠ task_id) := by
  refine ⟨rfl, ?_, ?_, rfl, ?_⟩
  · intro n
    simp [delete_task, List.mem_filter]
  · intro t
    simp [delete_task, List.mem_filter]
  · intro row hrow
    have hjoin : row ∈ joined_rows (delete_task true task_id st).2 := by
      simpa [get_all_tasks, List.mem_insertionSort] using hrow
    obtain ⟨t, ht, hmap⟩ := List.mem_filterMap.mp hjoin
    obtain ⟨c, -, hrc⟩ := Option.map_eq_some'.mp hmap
    have hid : t.id ≠ task_id := by
      have ht' : t ∈ st.tasks.filter (fun x => x.id ≠ task_id) := ht
      simpa using (List.mem_filter.mp ht').2
    subst hrc
    exact hid

/-- Witness for `delete_task_cascades` on `wSt2` deleting task 1: the
other task's note survives, the deleted task's note is gone, and the
surviving listing row has a different id. -/
theorem delete_task_cascades_app :
    (⟨2, 2, "tonight", 7⟩ : Note) ∈ (delete_task true 1 wSt2).2.notes ∧
    ¬ ((⟨1, 1, "first draft done", 6⟩ : Note) ∈
        (delete_task true 1 wSt2).2.notes) ∧
    (⟨2, "Call mom", 2, "Open", 6, 6, "Family", some "tonight"⟩ :
        TaskRow).id ≠ 1 := by
  refine ⟨?_, ?_, ?_⟩
  · exact ((delete_task_cascades wSt2 1).2.1 _).mpr ⟨by decide, by decide⟩
  · intro hmem
    exact (((delete_task_cascades wSt2 1).2.1 _).mp hmem).2 rfl
  · exact (delete_task_cascades wSt2 1).2.2.2.2 _ (by decide)

/-- `List.find?` by id over the update-map `update_task` performs: the
first task found with the given id is the updated version of the first
task the original list held with that id. -/
theorem find?_update_map (l : List Task) (task_id : Nat) (subject : String)
    (category : Nat) (status : String) (now : Nat) (t0 : Task)
    (h : l.find? (fun t => t.id == task_id) = some t0) :
    (l.map fun t =>
        if t.id = task_id then
          { t with
            subject := subject, category := category, status := status,
            updated_at := now }
        else t).find? (fun t => t.id == task_id) =
      some ⟨t0.id, subject, category, status, t0.created_at, now⟩ := by
  induction l with
  | nil => simp at h
  | cons t ts ih =>
    by_cases ht : t.id = task_id
    · rw [List.find?_cons] at h
      simp only [ht, beq_self_eq_true] at h
      obtain rfl : t = t0 := Option.some.inj h
      simp only [List.map_cons, List.find?_cons, ht, if_true, beq_self_eq_true]
    · rw [List.find?_cons] at h
      have hb : (t.id == task_id) = false := by simp [ht]
      simp only [hb] at h
      simp only [List.map_cons, List.find?_cons, if_neg ht, hb]
      exact ih h

/-- C5: with the target task present and the new category existing,
`update_task` succeeds and the next `get_task_by_id` read returns the
task with the new subject, category and status, the same `id` and
`created_at` as before, and `updated_at` set to the update time. -/
theorem update_task_reflects (st : DBState) (task_id : Nat) (subject : String)
    (category : Nat) (status : String) (now : Nat) (t0 : Task)
    (hfind : get_task_by_id true task_id st = some t0)
    (hcat : st.categories.any (fun c => c.id == category) = true) :
    (update_task true task_id subject category status now st).1 = true ∧
    get_task_by_id true task_id
        (update_task true task_id subject category status now st).2 =
      some ⟨t0.id, subject, category, status, t0.created_at, now⟩ := by
  have hfind' : st.tasks.find? (fun t => t.id == task_id) = some t0 := hfind
  constructor
  · simp [update_task, hcat]
  · have htasks :
        (update_task true task_id subject category status now st).2.tasks =
          st.tasks.map fun t =>
            if t.id = task_id then
              { t with
                subject := subject, category := category, status := status,
                updated_at := now }
            else t := by
      simp [update_task, hcat]
    show (update_task true task_id subject category status now st).2.tasks.find?
        (fun t => t.id == task_id) = some _
    rw [htasks]
    exact find?_update_map st.tasks task_id subject category status now t0 hfind'

/-- Witness for `update_task_reflects`: updating task 1 of `wSt2` to
category 2 and status "Closed" is visible on the next read, with
`created_at` still 5. -/
theorem update_task_reflects_app :
    get_task_by_id true 1
        (update_task true 1 "New subject" 2 "Closed" 9 wSt2).2 =
      some ⟨1, "New subject", 2, "Closed", 5, 9⟩ :=
  (update_task_reflects wSt2 1 "New subject" 2 "Closed" 9
    ⟨1, "Ship report", 1, "Idea", 5, 5⟩ (by decide) (by decide)).2

/-- C7: with no connection every operation returns its sentinel (`false`
for mutating calls, `none`/`[]` for reads, and for `delete_category` the
generic connection message) and leaves the state unchanged; constraint
failures (duplicate category name, unknown foreign key) likewise return
`false` with the state unchanged; only `delete_category` reports a
distinguishing human-readable message. -/
theorem db_errors_are_sentinels (st : DBState)
    (name subject status note search_term : String)
    (category usedCategory badCategory task_id missingTask existingTask : Nat)
    (now : Nat) :
    create_category false name now st = (false, st) ∧
    get_all_categories false st = [] ∧
    get_category_by_id false category st = none ∧
    update_category false category name now st = (false, st) ∧
    delete_category false category st =
      ((false, "Database connection error"), st) ∧
    create_task false subject category status (some note) now st =
      (false, st) ∧
    get_all_tasks false st = [] ∧
    search_tasks false search_term st = [] ∧
    get_task_by_id false task_id st = none ∧
    get_task_notes false task_id st = [] ∧
    update_task false task_id subject category status now st = (false, st) ∧
    add_note_to_task false task_id note now st = (false, st) ∧
    delete_task false task_id st = (false, st) ∧
    (st.categories.any (fun c => str_lower c.name == str_lower name) = true →
      create_category true name now st = (false, st)) ∧
    (st.categories.any (fun c => c.id == badCategory) = false →
      create_task true subject badCategory status (some note) now st =
        (false, st)) ∧
    (st.tasks.any (fun t => t.id == existingTask) = true →
      st.categories.any (fun c => c.id == badCategory) = false →
      update_task true existingTask subject badCategory status now st =
        (false, st)) ∧
    (st.tasks.any (fun t => t.id == missingTask) = false →
      add_note_to_task true missingTask note now st = (false, st)) ∧
    (0 < st.tasks.countP (fun t => t.category == usedCategory) →
      (delete_category true usedCategory st).1.1 = false ∧
      (delete_category true usedCategory st).2 = st) := by
  refine ⟨rfl, rfl, rfl, rfl, rfl, rfl, rfl, rfl, rfl, rfl, rfl, rfl, rfl,
    ?_, ?_, ?_, ?_, ?_⟩
  · intro h
    simp [create_category, h]
  · intro h
    simp [create_task, h]
  · intro h1 h2
    simp [update_task, h1, h2]
  · intro h
    simp [add_note_to_task, h]
  · intro h
    constructor <;> simp [delete_category, h]

/-- Witness for `db_errors_are_sentinels` on `wSt2`: duplicate name
"work" (case-insensitive), unknown category 5, unknown task 9, and
deleting in-use category 1 all fail without changing the state. -/
theorem db_errors_are_sentinels_app :
    create_category true "work" 3 wSt2 = (false, wSt2) ∧
    create_task true "s" 5 "Idea" (some "n") 3 wSt2 = (false, wSt2) ∧
    update_task true 1 "s" 5 "Idea" 3 wSt2 = (false, wSt2) ∧
    add_note_to_task true 9 "n" 3 wSt2 = (false, wSt2) ∧
    (delete_category true 1 wSt2).1.1 = false := by
  obtain ⟨-, -, -, -, -, -, -, -, -, -, -, -, -, h1, h2, h3, h4, h5⟩ :=
    db_errors_are_sentinels wSt2 "work" "s" "Idea" "n" "q" 0 1 5 0 9 1 3
  exact ⟨h1 (by decide), h2 (by decide), h3 (by decide) (by decide),
    h4 (by decide), (h5 (by decide)).1⟩

/-- Seeding categories with `init_database`'s fold never touches the
notes table. -/
theorem foldl_seed_categories_notes (names : List String) (now : Nat) :
    ∀ s : DBState,
      (names.foldl
        (fun s nm =>
          { s with
            categories := s.categories ++ [⟨s.nextCategoryId, nm, now, now⟩],
            nextCategoryId := s.nextCategoryId + 1 })
        s).notes = s.notes := by
  induction names with
  | nil =>
    intro s
    rfl
  | cons nm names ih =>
    intro s
    rw [List.foldl_cons]
    exact ih _

/-- A single mutating `DatabaseManager` call keeps every existing note
record (same text, same `created_at`) unless it is `delete_task` of the
note's parent. -/
theorem applyOp_keeps_note (conn : Bool) (op : DBOp) (st : DBState) (n : Note)
    (hmem : n ∈ st.notes)
    (hop : ∀ tid, op = DBOp.deleteTask tid → n.task_id ≠ tid) :
    n ∈ (applyOp conn op st).notes := by
  cases op with
  | initDatabase now =>
    show n ∈ (init_database conn now st).notes
    cases conn
    · exact hmem
    · by_cases hlen : st.categories.length = 0
      · simp only [init_database, if_pos hlen, if_true]
        rw [foldl_seed_categories_notes]
        exact hmem
      · simpa [init_database, hlen] using hmem
  | createCategory name now =>
    show n ∈ (create_category conn name now st).2.notes
    cases conn
    · exact hmem
    · cases hdup : st.categories.any fun c => str_lower c.name == str_lower name <;>
        simpa [create_category, hdup] using hmem
  | updateCategory c name now =>
    show n ∈ (update_category conn c name now st).2.notes
    cases conn
    · exact hmem
    · cases hdup : st.categories.any
          fun x => x.id != c && str_lower x.name == str_lower name <;>
        simpa [update_category, hdup] using hmem
  | deleteCategory c =>
    show n ∈ (delete_category conn c st).2.notes
    cases conn
    · exact hmem
    · by_cases hcnt : st.tasks.countP (fun t => t.category == c) > 0 <;>
        simpa [delete_category, hcnt] using hmem
  | createTask subject c status note now =>
    show n ∈ (create_task conn subject c status note now st).2.notes
    cases conn
    · exact hmem
    · cases hfk : st.categories.any fun x => x.id == c
      · simpa [create_task, hfk] using hmem
      · cases note with
        | none => simpa [create_task, hfk] using hmem
        | some s =>
          by_cases hs : str_trim s = ""
          · simpa [create_task, hfk, hs] using hmem
          · simp [create_task, hfk, hs]
            exact Or.inl hmem
  | updateTask tid subject c status now =>
    show n ∈ (update_task conn tid subject c status now st).2.notes
    cases conn
    · exact hmem
    · cases hcond : (st.tasks.any fun t => t.id == tid) &&
          !(st.categories.any fun x => x.id == c) <;>
        simpa [update_task, hcond] using hmem
  | addNoteToTask tid note now =>
    show n ∈ (add_note_to_task conn tid note now st).2.notes
    cases conn
    · exact hmem
    · cases hex : st.tasks.any fun t => t.id == tid
      · simpa [add_note_to_task, hex] using hmem
      · simp [add_note_to_task, hex]
        exact Or.inl hmem
  | deleteTask tid =>
    have hne : n.task_id ≠ tid := hop tid rfl
    show n ∈ (delete_task conn tid st).2.notes
    cases conn
    · exact hmem
    · simp [delete_task, List.mem_filter]
      exact ⟨hmem, hne⟩

/-- C8: notes are immutable once created: under any sequence of
`DatabaseManager` mutating operations that contains no `delete_task` of
the note's parent task, an existing note row survives with its text and
`created_at` unchanged (the operation type has no note-update and no
note-delete constructor, so deleting the parent task is the only way a
note can disappear). -/
theorem notes_immutable (conn : Bool) (ops : List DBOp) (st : DBState)
    (n : Note) (hmem : n ∈ st.notes)
    (hnd : ∀ tid, DBOp.deleteTask tid ∈ ops → n.task_id ≠ tid) :
    n ∈ (ops.foldl (fun s op => applyOp conn op s) st).notes := by
  revert hmem hnd
  induction ops generalizing st with
  | nil =>
    intro hmem _
    simpa using hmem
  | cons op ops ih =>
    intro hmem hnd
    rw [List.foldl_cons]
    exact ih (applyOp conn op st)
      (applyOp_keeps_note conn op st n hmem fun tid htid =>
        hnd tid (by rw [htid]; exact List.mem_cons_self _ _))
      (fun tid htid => hnd tid (List.mem_cons_of_mem _ htid))

/-- Witness for `notes_immutable`: the note on task 1 of `wSt2` survives
the sequence `ops8` (which creates, updates, deletes task 2, adds a note,
creates a category and re-runs initialization). -/
theorem notes_immutable_app :
    (⟨1, 1, "first draft done", 6⟩ : Note) ∈
      (ops8.foldl (fun s op => applyOp true op s) wSt2).notes :=
  notes_immutable true ops8 wSt2 ⟨1, 1, "first draft done", 6⟩ (by decide)
    (fun tid htid => by
      simp [ops8] at htid
      subst htid
      decide)

/-- C10: `get_all_tasks` and `search_tasks` return rows sorted by
`created_at` descending, and each row carries the `GROUP_CONCAT` of the
task's notes in ascending `created_at` order separated by " | "
(`task_notes_concat`); `get_all_categories` is sorted by name
(case-insensitive collation); `get_task_notes` is sorted by `created_at`
descending. -/
theorem reads_ordered (st : DBState) (search_term : String) (task_id : Nat) :
    (get_all_tasks true st).Sorted taskRowDesc ∧
    (search_tasks true search_term st).Sorted taskRowDesc ∧
    (∀ row ∈ get_all_tasks true st, row.notes = task_notes_concat st row.id) ∧
    (∀ row ∈ search_tasks true search_term st,
      row.notes = task_notes_concat st row.id) ∧
    (get_all_categories true st).Sorted catNameLe ∧
    (get_task_notes true task_id st).Sorted noteDesc := by
  refine ⟨?_, ?_, ?_, ?_, ?_, ?_⟩
  · exact List.sorted_insertionSort taskRowDesc (joined_rows st)
  · exact List.sorted_insertionSort taskRowDesc _
  · intro row hrow
    have hjoin : row ∈ joined_rows st := by
      simpa [get_all_tasks, List.mem_insertionSort] using hrow
    obtain ⟨t, -, hmap⟩ := List.mem_filterMap.mp hjoin
    obtain ⟨c, -, hrc⟩ := Option.map_eq_some'.mp hmap
    subst hrc
    rfl
  · intro row hrow
    have hjoin : row ∈ joined_rows st := by
      have hmem2 : row ∈ (joined_rows st).filter (fun r =>
          sql_like (search_pattern search_term) r.subject ||
            sql_like (search_pattern search_term) r.category_name) := by
        simpa [search_tasks, List.mem_insertionSort] using hrow
      exact (List.mem_filter.mp hmem2).1
    obtain ⟨t, -, hmap⟩ := List.mem_filterMap.mp hjoin
    obtain ⟨c, -, hrc⟩ := Option.map_eq_some'.mp hmap
    subst hrc
    rfl
  · exact List.sorted_insertionSort catNameLe st.categories
  · exact List.sorted_insertionSort noteDesc _

/-- Witness for `reads_ordered` on `wSt2`, with the concrete listing row
of task 1 carrying its concatenated note. -/
theorem reads_ordered_app :
    (get_all_tasks true wSt2).Sorted taskRowDesc ∧
    (⟨1, "Ship report", 1, "Idea", 5, 5, "Work", some "first draft done"⟩ :
        TaskRow).notes = task_notes_concat wSt2 1 :=
  ⟨(reads_ordered wSt2 "x" 1).1,
   (reads_ordered wSt2 "x" 1).2.2.1 _ (by decide)⟩

end Taskappy
